import Mathlib

/-!
# The REST shell of `ninja` (`uilayer/rest/rest.go`)

A shallow embedding of `rest.go` and proofs about it.

* Part 1 embeds the response envelope: `ResponseResource`, its JSON encoding
  (the `json:"...,omitempty"` struct tags), and the adapter `ResponseWrapper`
  together with the two `render` calls it makes and the `http.ResponseWriter`
  they drive.
* Part 2 embeds the server lifecycle: `ChiWalkFunc`, `Run`, `ShutdownOnNotify`
  and `Register`, as a step function over an explicit process state.  The two
  goroutines are interleaved by a list of events.

Library behaviour the file relies on (`encoding/json`, `go-chi/render`,
`go-chi/chi`, `net/http`, `context`, `log`) is modelled by the definitions
marked "library".
-/

namespace Rest

/-! ## Go error values -/

/-- A non-nil Go `error` value.  `nil` is `Option.none` of this type.  The two sentinels are
compared by identity in Go, which is constructor equality here: `other "http: Server closed"`
has the text of `http.ErrServerClosed` and is a different value. -/
inductive GoError where
  | ErrServerClosed
  | DeadlineExceeded
  | other (msg : String)
  deriving DecidableEq, Repr

/-- The method `Error()` of a Go error value. -/
def GoError.Error : GoError → String
  | .ErrServerClosed => "http: Server closed"
  | .DeadlineExceeded => "context deadline exceeded"
  | .other msg => msg

/-! ## Part 1: the response envelope -/

mutual
/-- A handler payload (`interface{}`) that is not the nil interface, described by the JSON tree
`encoding/json` produces for it.  `null` is a non-nil interface holding a nil pointer, map or
slice; `unsupported` is a value `encoding/json` rejects (a channel, a function, ...), carrying
its Go type name.  Numbers are integers. -/
inductive JValue where
  | null
  | bool (b : Bool)
  | num (n : Int)
  | str (s : String)
  | arr (xs : JList)
  | obj (kvs : JFields)
  | unsupported (goType : String)
/-- The elements of a JSON array. -/
inductive JList where
  | nil
  | cons (v : JValue) (rest : JList)
/-- The members of a JSON object, in the order the encoder emits them. -/
inductive JFields where
  | nil
  | cons (k : String) (v : JValue) (rest : JFields)
end

/-- Lower-case hexadecimal digit (library: the table `hex` of `encoding/json`). -/
def hexDigit (n : Nat) : Char :=
  "0123456789abcdef".toList.getD n '0'

/-- The backslash character. -/
def backslash : Char := Char.ofNat 92

/-- The escape of one character inside a JSON string (library: the loop body of
`encoding/json.appendString` with `escapeHTML = true`, which is what `render.JSON` selects).
The characters are named by code point: 92 backslash, 34 double quote, 8 backspace, 12 form
feed, 10 line feed, 13 carriage return, 9 tab, 60 `<`, 62 `>`, 38 `&`, 8232 and 8233 the line
and paragraph separators. -/
def escapeChar (c : Char) : List Char :=
  if c.toNat = 92 ∨ c.toNat = 34 then [backslash, c]
  else if c.toNat = 8 then [backslash, 'b']
  else if c.toNat = 12 then [backslash, 'f']
  else if c.toNat = 10 then [backslash, 'n']
  else if c.toNat = 13 then [backslash, 'r']
  else if c.toNat = 9 then [backslash, 't']
  else if c.toNat < 32 ∨ c.toNat = 60 ∨ c.toNat = 62 ∨ c.toNat = 38 then
    [backslash, 'u', '0', '0', hexDigit (c.toNat / 16), hexDigit (c.toNat % 16)]
  else if c.toNat = 8232 then [backslash, 'u', '2', '0', '2', '8']
  else if c.toNat = 8233 then [backslash, 'u', '2', '0', '2', '9']
  else [c]

/-- A Go string as a JSON string literal (library: `encoding/json.appendString`). -/
def appendString (s : String) : String :=
  "\"" ++ String.mk (s.toList.flatMap escapeChar) ++ "\""

mutual
/-- The JSON text of a payload, or the encoder's error (library: `encoding/json`). -/
def encodeValue : JValue → Except String String
  | .null => .ok "null"
  | .bool b => .ok (if b then "true" else "false")
  | .num n => .ok (toString n)
  | .str s => .ok (appendString s)
  | .arr xs => do
      let t ← encodeList xs
      pure ("[" ++ t ++ "]")
  | .obj kvs => do
      let t ← encodeFields kvs
      pure ("\x7b" ++ t ++ "\x7d")
  | .unsupported goType => .error ("json: unsupported type: " ++ goType)
/-- The comma-separated elements of an array. -/
def encodeList : JList → Except String String
  | .nil => .ok ""
  | .cons v .nil => encodeValue v
  | .cons v rest => do
      let a ← encodeValue v
      let b ← encodeList rest
      pure (a ++ "," ++ b)
/-- The comma-separated members of an object. -/
def encodeFields : JFields → Except String String
  | .nil => .ok ""
  | .cons k v .nil => do
      let a ← encodeValue v
      pure (appendString k ++ ":" ++ a)
  | .cons k v rest => do
      let a ← encodeValue v
      let b ← encodeFields rest
      pure (appendString k ++ ":" ++ a ++ "," ++ b)
end

/-- The struct `ResponseResource`.  `Data` is an `interface{}`: `none` is the nil interface. -/
structure ResponseResource where
  Code : Int
  Error : String
  Data : Option JValue

/-- What a wrapped handler returns: `(interface{}, int, error)`. -/
structure HandlerResult where
  responseData : Option JValue
  statusCode : Int
  err : Option GoError

/-- The local variable `resp` of `ResponseWrapper` after lines 62-68: the composite literal with
`Code` and `Data`, then `resp.Error = err.Error()` when `err != nil`. -/
def ResponseWrapper.resp (res : HandlerResult) : ResponseResource :=
  let resp : ResponseResource := { Code := res.statusCode, Error := "", Data := res.responseData }
  match res.err with
  | some e => { resp with Error := e.Error }
  | none => resp

/-- The members `encoding/json` emits for a `ResponseResource`, as (name, JSON text of the value)
in struct order.  Each field is tagged `omitempty`: `code` is skipped when it is `0`, `error`
when it is `""`, `data` when the interface is nil.  Fails when the payload does. -/
def ResponseResource.members (resp : ResponseResource) : Except String (List (String × String)) :=
  let code := if resp.Code = 0 then [] else [("code", toString resp.Code)]
  let error := if resp.Error = "" then [] else [("error", appendString resp.Error)]
  match resp.Data with
  | none => .ok (code ++ error)
  | some v =>
    match encodeValue v with
    | .ok txt => .ok (code ++ error ++ [("data", txt)])
    | .error msg => .error msg

/-- The text of a JSON object with the given members. -/
def objectText (ms : List (String × String)) : String :=
  "\x7b" ++ ",".intercalate (ms.map fun m => appendString m.1 ++ ":" ++ m.2) ++ "\x7d"

/-- The serialized `ResponseResource` (library: `json.Marshal`). -/
def ResponseResource.Marshal (resp : ResponseResource) : Except String String :=
  match resp.members with
  | .ok ms => .ok (objectText ms)
  | .error msg => .error msg

/-- The bytes `json.Encoder.Encode` writes: the serialized value and a newline. -/
def Encode (resp : ResponseResource) : Except String String :=
  match resp.Marshal with
  | .ok txt => .ok (txt ++ "\n")
  | .error msg => .error msg

/-- The part of `*http.Request` the adapter touches: `render.Status` stores a status hint in the
request context under `render.StatusCtxKey`. -/
structure Request where
  Method : String
  URL : String
  statusHint : Option Int
  deriving DecidableEq, Repr

/-- The server side of one response (library: `net/http`'s `response`).
* `method` is the method of the request being answered (`w.req.Method`);
* `header` is the header map the handler sees, with canonical keys;
* `hijacked` tells whether the handler took over the connection;
* `interim` lists the 1xx informational status lines sent;
* `status` is the final status once `wroteHeader`;
* `contentLength` is the length declared by a `Content-Length` header when the header was
  written (`none` is the -1 of `net/http`), and `written` counts the body bytes handed to
  `Write`;
* `body` is the body sent to the client.
Transport failures are outside the model. -/
structure ResponseWriter where
  method : String
  header : List (String × String)
  hijacked : Bool
  wroteHeader : Bool
  status : Int
  interim : List Int
  contentLength : Option Nat
  written : Nat
  body : String
  deriving DecidableEq, Repr

/-- The writer `net/http` hands to the handler of a request: nothing written yet. -/
def ResponseWriter.forRequest (r : Request) : ResponseWriter :=
  { method := r.Method, header := [], hijacked := false, wroteHeader := false, status := 0,
    interim := [], contentLength := none, written := 0, body := "" }

/-- The writer `net/http` hands to the handler of a GET request: nothing written yet. -/
def ResponseWriter.fresh : ResponseWriter :=
  ResponseWriter.forRequest { Method := "GET", URL := "/", statusHint := none }

/-- The call `w.Header().Set(k, v)`. -/
def ResponseWriter.setHeader (w : ResponseWriter) (k v : String) : ResponseWriter :=
  { w with header := (w.header.filter fun kv => kv.1 ≠ k) ++ [(k, v)] }

/-- The call `w.Header().Del(k)`. -/
def ResponseWriter.delHeader (w : ResponseWriter) (k : String) : ResponseWriter :=
  { w with header := w.header.filter fun kv => kv.1 ≠ k }

/-- The call `w.Header().Get(k)`: the first value of the key, `""` when there is none. -/
def ResponseWriter.getHeader (w : ResponseWriter) (k : String) : String :=
  match w.header.find? (fun kv => kv.1 = k) with
  | some kv => kv.2
  | none => ""

/-- The value of a `Content-Length` header as `WriteHeader` reads it (library:
`strconv.ParseInt(cl, 10, 64)` with `err == nil && v >= 0`): an optional sign (43 is `+`, 45 is
`-`), then decimal digits, within 64 bits and not negative. -/
def parseContentLength (cl : String) : Option Nat :=
  let cs := cl.toList
  let neg := cs.head?.map Char.toNat = some 45
  let ds := if cs.head?.map Char.toNat = some 45 ∨ cs.head?.map Char.toNat = some 43
    then cs.tail else cs
  if ds = [] ∨ ds.any (fun c => !c.isDigit) then none
  else
    let n := ds.foldl (fun acc c => 10 * acc + (c.toNat - 48)) 0
    if n > 9223372036854775807 then none
    else if neg ∧ n ≠ 0 then none
    else some n

/-- The call `w.WriteHeader(code)` (library).  On a hijacked connection and on a second call it
does nothing; a code outside `100..999` panics (`checkWriteHeaderCode`), the `Except.error`
here; a 1xx code other than 101 is sent as an informational response and leaves the final
status open; otherwise the status is final and a `Content-Length` header is read: a valid one
is the declared length, an invalid one is deleted. -/
def ResponseWriter.WriteHeader (w : ResponseWriter) (code : Int) : Except String ResponseWriter :=
  if w.hijacked then .ok w
  else if w.wroteHeader then .ok w
  else if code < 100 ∨ code > 999 then .error ("invalid WriteHeader code " ++ toString code)
  else if code ≤ 199 ∧ code ≠ 101 then .ok { w with interim := w.interim ++ [code] }
  else
    let w1 := { w with wroteHeader := true, status := code }
    if w.getHeader "Content-Length" = "" then .ok { w1 with contentLength := none }
    else
      match parseContentLength (w.getHeader "Content-Length") with
      | some v => .ok { w1 with contentLength := some v }
      | none => .ok { w1.delHeader "Content-Length" with contentLength := none }

/-- Whether a response with this status may carry a body (library:
`net/http.bodyAllowedForStatus`). -/
def bodyAllowedForStatus (status : Int) : Bool :=
  if 100 ≤ status ∧ status ≤ 199 then false
  else if status = 204 then false
  else if status = 304 then false
  else true

/-- The call `w.Write(data)` (library).  On a hijacked connection it does nothing
(`http.ErrHijacked`).  Otherwise it writes the header with status 200 when none has been
written, and then: empty data changes nothing; data is dropped when the status forbids a body
(`http.ErrBodyNotAllowed`); the bytes are counted, and dropped when they exceed the declared
`Content-Length` (`http.ErrContentLength`); the bytes of the response to a HEAD request are
discarded; everything else is sent.  `render.JSON` ignores the error of `Write`. -/
def ResponseWriter.Write (w : ResponseWriter) (data : String) : Except String ResponseWriter :=
  if w.hijacked then .ok w
  else
    match (if w.wroteHeader then .ok w else w.WriteHeader 200) with
    | .error p => .error p
    | .ok w1 =>
      if data = "" then .ok w1
      else if !bodyAllowedForStatus w1.status then .ok w1
      else
        let w2 := { w1 with written := w1.written + data.utf8ByteSize }
        match w2.contentLength with
        | some n =>
          if w2.written > n then .ok w2
          else if w2.method = "HEAD" then .ok w2
          else .ok { w2 with body := w2.body ++ data }
        | none =>
          if w2.method = "HEAD" then .ok w2
          else .ok { w2 with body := w2.body ++ data }

/-- The call `render.Status(r, status)` (library): `*r = *r.WithContext(...)` with the status
stored under `render.StatusCtxKey`. -/
def renderStatus (r : Request) (status : Int) : Request :=
  { r with statusHint := some status }

/-- The call `http.Error(w, msg, code)` (library): delete `Content-Length`, set the content type
and `X-Content-Type-Options`, write the header and the message with a newline. -/
def httpError (w : ResponseWriter) (msg : String) (code : Int) : Except String ResponseWriter :=
  let w1 := (((w.delHeader "Content-Length").setHeader "Content-Type"
    "text/plain; charset=utf-8").setHeader "X-Content-Type-Options" "nosniff")
  match w1.WriteHeader code with
  | .error p => .error p
  | .ok w2 => w2.Write (msg ++ "\n")

/-- The call `render.JSON(w, r, v)` (library): encode into a buffer; on failure answer
`http.Error(..., 500)`; otherwise set the content type, write the header with the status hint of
the request when there is one, and write the buffer. -/
def renderJSON (w : ResponseWriter) (r : Request) (v : ResponseResource) :
    Except String ResponseWriter :=
  match Encode v with
  | .error msg => httpError w msg 500
  | .ok buf =>
    let w1 := w.setHeader "Content-Type" "application/json; charset=utf-8"
    match r.statusHint with
    | some status =>
      match w1.WriteHeader status with
      | .error p => .error p
      | .ok w2 => w2.Write buf
    | none => w1.Write buf

/-- What one execution of a wrapped function leaves behind: its three results, the state it ran
against (a store, a clock, a counter), and the writer and the request it was given, both of
which it reaches through a reference and may have changed. -/
structure HandlerEffect (σ : Type) where
  result : HandlerResult
  world : σ
  w : ResponseWriter
  r : Request

/-- The wrapped function `f`: `func(w http.ResponseWriter, r *http.Request) (interface{}, int,
error)`, run against a state `σ`. -/
abbrev HandlerFunc (σ : Type) := σ → ResponseWriter → Request → HandlerEffect σ

/-- One run of the adapter: the state `f` left, the request as `render.Status` left it, the
envelope built, and the response writer, or the panic raised while writing. -/
structure Exchange (σ : Type) where
  world : σ
  r : Request
  resp : ResponseResource
  w : Except String ResponseWriter

/-- The handler `ResponseWrapper(f)`, applied to a writer and a request: run `f`, build `resp`,
then `render.Status(r, statusCode)` and `render.JSON(w, r, resp)`. -/
def ResponseWrapper {σ : Type} (f : HandlerFunc σ) (s : σ) (w : ResponseWriter) (r : Request) :
    Exchange σ :=
  let out := f s w r
  let resp := ResponseWrapper.resp out.result
  let r1 := renderStatus out.r out.result.statusCode
  { world := out.world, r := r1, resp := resp, w := renderJSON out.w r1 resp }

/-- The handler that returns the same result for every request and touches nothing. -/
def constHandler (res : HandlerResult) : HandlerFunc Unit :=
  fun s w r => { result := res, world := s, w := w, r := r }

/-- A handler that answers on its own: it calls `w.WriteHeader(500)` and `w.Write("oops")`, and
then returns `(nil, 200, nil)`. -/
def writingHandler : HandlerFunc Unit :=
  fun s w r =>
    match w.WriteHeader 500 with
    | .ok w1 =>
      match w1.Write "oops" with
      | .ok w2 => { result := ⟨none, 200, none⟩, world := s, w := w2, r := r }
      | .error _ => { result := ⟨none, 200, none⟩, world := s, w := w1, r := r }
    | .error _ => { result := ⟨none, 200, none⟩, world := s, w := w, r := r }

/-- A handler that only sets a header field, `w.Header().Set("X-Request-Id", "42")`, and returns
`(nil, 404, error("not found"))`. -/
def headerHandler : HandlerFunc Unit :=
  fun s w r =>
    { result := ⟨none, 404, some (.other "not found")⟩, world := s,
      w := w.setHeader "X-Request-Id" "42", r := r }

/-- The final HTTP status of an exchange, when a header was written. -/
def Exchange.status {σ : Type} (e : Exchange σ) : Option Int :=
  match e.w with
  | .ok w => if w.wroteHeader then some w.status else none
  | .error _ => none

/-- The response body of an exchange, when the adapter did not panic. -/
def Exchange.body {σ : Type} (e : Exchange σ) : Option String :=
  match e.w with
  | .ok w => some w.body
  | .error _ => none


/-! ## Part 2: the server lifecycle -/

/-- The part of a `context.Context` that `Shutdown` looks at: its deadline, in ticks from the
moment `Shutdown` is called.  `none` is a context that is never done. -/
structure Context where
  deadline : Option Nat
  deriving DecidableEq, Repr

/-- The context `context.Background()` (library): no deadline, never cancelled. -/
def Context.Background : Context :=
  { deadline := none }

/-- One entry of the route table as `chi.Walk` presents it to the walk function: method, route,
handler and middleware chain.  Handlers and middlewares are named by numbers. -/
structure Route where
  method : String
  route : String
  handler : Nat
  middlewares : List Nat
  deriving DecidableEq, Repr

/-- One call of the `log` package, by call site. -/
inductive LogEntry where
  | route (method route : String)
  | walkPanic (msg : String)
  | serving (port : String)
  | serveError (err : Option GoError)
  | goodbye
  | fatal (err : GoError)
  deriving DecidableEq, Repr

/-- The message of a log call: the format string of its call site with the arguments filled
in. -/
def LogEntry.text : LogEntry → String
  | .route m p => "👉 " ++ m ++ " " ++ p ++ "\n"
  | .walkPanic msg => "⚠️  Logging err: " ++ msg ++ "\n"
  | .serving port => "Serving at 🔥 :" ++ port ++ " \n"
  | .serveError (some e) => "HTTP server ListenAndServe: " ++ e.Error
  | .serveError none => "HTTP server ListenAndServe: <nil>"
  | .goodbye => "😔 Shutting down. Goodbye.."
  | .fatal e => "⚠️  HTTP server ListenAndServe error: " ++ e.Error

/-- Whether a log call is the one of line 47, the transport error of the serve call. -/
def LogEntry.isServeError : LogEntry → Bool
  | .serveError _ => true
  | _ => false

/-- How the process ended: `fatal` is `os.Exit(1)` from `log.Fatalf`, `killed` is the default
disposition of an interrupt no one subscribed to. -/
inductive Exit where
  | fatal
  | killed
  deriving DecidableEq, Repr

/-- Where the goroutine running `Run` stands. -/
inductive MainPc where
  | start
  | walked
  | launched
  | serving
  | waiting
  | returned
  | panicked
  deriving DecidableEq, Repr

/-- Where the goroutine running `ShutdownOnNotify` stands.  `armed`, `draining` and `closed` are
the states of the shutdown coordinator; `launched` is the goroutine before `signal.Notify`,
`fatal` is after `log.Fatalf`. -/
inductive WatcherPc where
  | absent
  | launched
  | armed
  | draining
  | closed
  | fatal
  deriving DecidableEq, Repr

/-- The state of the process as far as `Run` and `ShutdownOnNotify` see and change it. -/
structure State where
  router : List Route
  main : MainPc
  watcher : WatcherPc
  watcherCtx : Option Context
  closes : Nat
  serveCalls : Nat
  serveResult : Option (Option GoError)
  shutdownCtx : Option Context
  shutdownResult : Option (Option GoError)
  exit : Option Exit
  log : List LogEntry
  deriving DecidableEq, Repr

/-- The type `chi.WalkFunc`, with the process state passed through. -/
abbrev WalkFunc := String → String → Nat → List Nat → State → State × Option GoError

/-- The function `ChiWalkFunc`: one `log.Printf`, then `return nil`. -/
def ChiWalkFunc : WalkFunc :=
  fun method route _handler _middlewares st =>
    ({ st with log := st.log ++ [.route method route] }, none)

/-- The function `chi.Walk` (library), over the entries in the order it visits them: call the
walk function on each entry and stop at the first error. -/
def Walk : List Route → WalkFunc → State → State × Option GoError
  | [], _, st => (st, none)
  | e :: rest, walkFn, st =>
    match walkFn e.method e.route e.handler e.middlewares st with
    | (st1, some err) => (st1, some err)
    | (st1, none) => Walk rest walkFn st1

/-- The call `srv.Shutdown(ctx)` (library).  `lnerr` is the error of closing the listeners and
`drain` the time the open connections need to become idle (`none`: they never do).  The call
returns `lnerr` once the connections are idle, `ctx.Err()` when the deadline of `ctx` comes
first, and does not return (`none`) when neither happens. -/
def Shutdown (ctx : Context) (lnerr : Option GoError) (drain : Option Nat) :
    Option (Option GoError) :=
  match drain, ctx.deadline with
  | some _, none => some lnerr
  | some t, some d => if t ≤ d then some lnerr else some (some .DeadlineExceeded)
  | none, some _ => some (some .DeadlineExceeded)
  | none, none => none

/-- The local `port` of `Run`. -/
def Run.port : String := "8082"

/-- The local `baseCtx` of `Run`. -/
def Run.baseCtx : Context := Context.Background

/-- The next statements of `Run`, up to the next point where it blocks; `none` when it is
blocked or done.
* `start`: lines 28-34, walk the routes and `log.Panicf` on an error;
* `walked`: lines 36-42, build `srv`, make `idleConnsClosed`, `go ShutdownOnNotify(baseCtx, ...)`;
* `launched`: lines 44-45, log the port and call `srv.ListenAndServe()`;
* `waiting`: line 49, the receive from `idleConnsClosed`, which proceeds once the channel is
  closed (nothing is ever sent on it). -/
def Run.step (s : State) : Option State :=
  match s.main with
  | .start =>
    match Walk s.router ChiWalkFunc s with
    | (s1, some err) =>
      some { s1 with main := .panicked, log := s1.log ++ [.walkPanic err.Error] }
    | (s1, none) => some { s1 with main := .walked }
  | .walked =>
    some { s with main := .launched, watcher := .launched, watcherCtx := some Run.baseCtx }
  | .launched =>
    some { s with main := .serving, serveCalls := s.serveCalls + 1,
                  log := s.log ++ [.serving Run.port] }
  | .serving => none
  | .waiting => if 0 < s.closes then some { s with main := .returned } else none
  | .returned => none
  | .panicked => none

/-- The return of `srv.ListenAndServe()` with `err`, lines 45-48: log unless `err` is
`http.ErrServerClosed`, then go on to the receive.  `ListenAndServe` returns
`http.ErrServerClosed` only after `Shutdown` was called. -/
def Run.serveReturn (s : State) (err : Option GoError) : Option State :=
  if s.main = .serving ∧ (err = some .ErrServerClosed → s.shutdownCtx.isSome) then
    some { s with
      main := .waiting
      serveResult := some err
      log := if err ≠ some .ErrServerClosed then s.log ++ [.serveError err] else s.log }
  else none

/-- Lines 75-77 of `ShutdownOnNotify`: subscribe to `os.Interrupt` and block on `sigint`. -/
def ShutdownOnNotify.start (s : State) : Option State :=
  if s.watcher = .launched then some { s with watcher := .armed } else none

/-- Lines 77-81 of `ShutdownOnNotify`: the interrupt is received, the goodbye is logged and
`srv.Shutdown(ctx)` is called with the context the goroutine was started with. -/
def ShutdownOnNotify.interrupt (s : State) : Option State :=
  match s.watcher, s.watcherCtx with
  | .armed, some ctx =>
    some { s with watcher := .draining, shutdownCtx := some ctx, log := s.log ++ [.goodbye] }
  | _, _ => none

/-- Lines 81-85 of `ShutdownOnNotify`: `srv.Shutdown` returns `err`; on an error `log.Fatalf`
logs and exits the process with status 1, otherwise `idleConnsClosed` is closed. -/
def ShutdownOnNotify.shutdownReturn (s : State) (err : Option GoError) : Option State :=
  if s.watcher = .draining then
    match err with
    | some e =>
      some { s with watcher := .fatal, shutdownResult := some (some e),
                    log := s.log ++ [.fatal e], exit := some .fatal }
    | none =>
      some { s with watcher := .closed, shutdownResult := some none, closes := s.closes + 1 }
  else none

/-- What `Register` has returned: `some none` is the `return nil` of line 24, which follows the
return of `server.Run()`; `none` while `Register` has not returned. -/
def Register (s : State) : Option (Option GoError) :=
  if s.main = .returned then some none else none

/-- What can happen next to the process. -/
inductive Event where
  | main
  | serveReturn (err : Option GoError)
  | watcher
  | interrupt
  | shutdownDone (lnerr : Option GoError) (drain : Option Nat)
  deriving DecidableEq, Repr

/-- One step of the process; `none` when the event cannot happen in this state.
* `main`: the goroutine of `Run` runs on;
* `serveReturn err`: `ListenAndServe` returns `err`;
* `watcher`: the goroutine of `ShutdownOnNotify` runs up to its receive;
* `interrupt`: the process gets an interrupt signal.  The armed coordinator receives it; once
  it has, further interrupts find the one-slot channel unread and change nothing; before
  `signal.Notify` the signal ends the process;
* `shutdownDone lnerr drain`: the pending `Shutdown` call comes to its end.
Nothing happens after the process has exited. -/
def step (s : State) (e : Event) : Option State :=
  if s.exit.isSome then none
  else
    match e with
    | .main => Run.step s
    | .serveReturn err => Run.serveReturn s err
    | .watcher => ShutdownOnNotify.start s
    | .interrupt =>
      match s.watcher with
      | .armed => ShutdownOnNotify.interrupt s
      | .draining => some s
      | .closed => some s
      | _ => some { s with exit := some .killed }
    | .shutdownDone lnerr drain =>
      match s.shutdownCtx with
      | some ctx =>
        match Shutdown ctx lnerr drain with
        | some err => ShutdownOnNotify.shutdownReturn s err
        | none => none
      | none => none

/-- The process before `Register` is called, with the route table `server.Routes()` builds. -/
def init (router : List Route) : State :=
  { router := router, main := .start, watcher := .absent, watcherCtx := none, closes := 0,
    serveCalls := 0, serveResult := none, shutdownCtx := none, shutdownResult := none,
    exit := none, log := [] }

/-- The state after a sequence of events, when each of them can happen in turn. -/
def run (s : State) : List Event → Option State
  | [] => some s
  | e :: es =>
    match step s e with
    | some s1 => run s1 es
    | none => none

/-- A handler that counts its executions in its state and answers from the request alone. -/
def countingHandler : HandlerFunc Nat :=
  fun n w r => { result := ⟨some (.str r.URL), 200, none⟩, world := n + 1, w := w, r := r }


/-- The number of transport-error log lines a serve outcome accounts for: none while the serve
call has not returned or when it returned `http.ErrServerClosed`, one otherwise. -/
def serveErrorLines : Option (Option GoError) → Nat
  | none => 0
  | some err => if err = some .ErrServerClosed then 0 else 1

/-- What holds in every state the process reaches from `init router`. -/
@[mk_iff]
structure Inv (router : List Route) (s : State) : Prop where
  router_eq : s.router = router
  not_panicked : s.main ≠ .panicked
  absent_iff : s.watcher = .absent ↔ (s.main = .start ∨ s.main = .walked)
  closes_eq : s.closes = if s.watcher = .closed then 1 else 0
  result_closed : s.watcher = .closed → s.shutdownResult = some none
  result_fatal : s.watcher = .fatal →
    ∃ e, s.shutdownResult = some (some e) ∧ s.log.getLast? = some (.fatal e)
  result_none : s.watcher ≠ .closed → s.watcher ≠ .fatal → s.shutdownResult = none
  exit_fatal : s.exit = some .fatal ↔ s.watcher = .fatal
  watcherCtx_eq : s.watcherCtx = if s.watcher = .absent then none else some Context.Background
  shutdownCtx_eq : s.shutdownCtx =
    if s.watcher = .draining ∨ s.watcher = .closed ∨ s.watcher = .fatal
    then some Context.Background else none
  goodbye_mem : s.shutdownCtx ≠ none → LogEntry.goodbye ∈ s.log
  returned_closed : s.main = .returned → s.watcher = .closed
  serveCalls_eq : s.serveCalls =
    if s.main = .serving ∨ s.main = .waiting ∨ s.main = .returned then 1 else 0
  serveResult_iff : s.serveResult ≠ none ↔ (s.main = .waiting ∨ s.main = .returned)
  serveLog_count : s.log.countP LogEntry.isServeError = serveErrorLines s.serveResult
  serveLog_mem : ∀ err, s.serveResult = some err → err ≠ some .ErrServerClosed →
    LogEntry.serveError err ∈ s.log


/-- A route table with two entries, for the concrete runs below. -/
def demoRouter : List Route :=
  [⟨"GET", "/items", 1, [7]⟩, ⟨"POST", "/items", 2, [7, 8]⟩]

/-- A run in which the interrupt arrives while the server is serving and the drain succeeds:
startup, interrupt, `Shutdown` returns nil after 3 ticks. -/
def drainRun : List Event :=
  [.main, .main, .watcher, .main, .interrupt, .shutdownDone none (some 3)]

/-- The state `drainRun` ends in. -/
def drainState : State :=
  { router := demoRouter, main := .serving, watcher := .closed,
    watcherCtx := some Context.Background, closes := 1, serveCalls := 1, serveResult := none,
    shutdownCtx := some Context.Background, shutdownResult := some none, exit := none,
    log := [.route "GET" "/items", .route "POST" "/items", .serving "8082", .goodbye] }

/-- A run in which the bind fails, the interrupt arrives later, the drain succeeds and `Run`
returns. -/
def bindFailRun : List Event :=
  [.main, .main, .watcher, .main, .serveReturn (some (.other "listen tcp :8082: bind: address already in use")),
   .interrupt, .shutdownDone none (some 0), .main]

/-- The state `bindFailRun` ends in. -/
def bindFailState : State :=
  { router := demoRouter, main := .returned, watcher := .closed,
    watcherCtx := some Context.Background, closes := 1, serveCalls := 1,
    serveResult := some (some (.other "listen tcp :8082: bind: address already in use")),
    shutdownCtx := some Context.Background, shutdownResult := some none, exit := none,
    log := [.route "GET" "/items", .route "POST" "/items", .serving "8082",
            .serveError (some (.other "listen tcp :8082: bind: address already in use")),
            .goodbye] }

/-- A run with an orderly shutdown: interrupt, the serve call returns `http.ErrServerClosed`,
the drain succeeds. -/
def closedRun : List Event :=
  [.main, .main, .watcher, .main, .interrupt, .serveReturn (some .ErrServerClosed),
   .shutdownDone none (some 2)]

/-- The state `closedRun` ends in. -/
def closedState : State :=
  { router := demoRouter, main := .waiting, watcher := .closed,
    watcherCtx := some Context.Background, closes := 1, serveCalls := 1,
    serveResult := some (some .ErrServerClosed),
    shutdownCtx := some Context.Background, shutdownResult := some none, exit := none,
    log := [.route "GET" "/items", .route "POST" "/items", .serving "8082", .goodbye] }

/-- A run in which closing the listeners fails during shutdown. -/
def fatalRun : List Event :=
  [.main, .main, .watcher, .main, .interrupt,
   .shutdownDone (some (.other "close tcp :8082: use of closed network connection")) (some 1)]

/-- The state `fatalRun` ends in. -/
def fatalState : State :=
  { router := demoRouter, main := .serving, watcher := .fatal,
    watcherCtx := some Context.Background, closes := 0, serveCalls := 1, serveResult := none,
    shutdownCtx := some Context.Background,
    shutdownResult := some (some (.other "close tcp :8082: use of closed network connection")),
    exit := some .fatal,
    log := [.route "GET" "/items", .route "POST" "/items", .serving "8082", .goodbye,
            .fatal (.other "close tcp :8082: use of closed network connection")] }

/-- A run up to the call of `Shutdown`. -/
def drainingRun : List Event :=
  [.main, .main, .watcher, .main, .interrupt]

/-- The state `drainingRun` ends in. -/
def drainingState : State :=
  { router := demoRouter, main := .serving, watcher := .draining,
    watcherCtx := some Context.Background, closes := 0, serveCalls := 1, serveResult := none,
    shutdownCtx := some Context.Background, shutdownResult := none, exit := none,
    log := [.route "GET" "/items", .route "POST" "/items", .serving "8082", .goodbye] }




/-- A run up to the serve call: the routes are walked, the coordinator is armed, and `Run` is
inside `ListenAndServe`. -/
def servingRun : List Event :=
  [.main, .main, .watcher, .main]

/-- The state `servingRun` ends in. -/
def servingState : State :=
  { router := demoRouter, main := .serving, watcher := .armed,
    watcherCtx := some Context.Background, closes := 0, serveCalls := 1, serveResult := none,
    shutdownCtx := none, shutdownResult := none, exit := none,
    log := [.route "GET" "/items", .route "POST" "/items", .serving "8082"] }

/-- A run in which the drain has begun and `Shutdown` has not returned yet, with the serve call
already back. -/
def pendingRun : List Event :=
  [.main, .main, .watcher, .main, .interrupt, .serveReturn (some .ErrServerClosed)]

/-- The state `pendingRun` ends in. -/
def pendingState : State :=
  { router := demoRouter, main := .waiting, watcher := .draining,
    watcherCtx := some Context.Background, closes := 0, serveCalls := 1,
    serveResult := some (some .ErrServerClosed),
    shutdownCtx := some Context.Background, shutdownResult := none, exit := none,
    log := [.route "GET" "/items", .route "POST" "/items", .serving "8082", .goodbye] }

/-! ## Part 1: theorems about the response envelope -/

theorem append_newline_ne_empty (t : String) : t ++ "\n" ≠ "" := by
  intro h
  have := congrArg String.length h
  simp at this
  exact absurd this.2 (by decide)

/-- Setting one header key leaves the value of every other key as it was. -/
theorem getHeader_setHeader_ne (w : ResponseWriter) (k k' v : String) (h : k' ≠ k) :
    (w.setHeader k v).getHeader k' = w.getHeader k' := by
  have key : ∀ l : List (String × String),
      ((l.filter fun kv => kv.1 ≠ k) ++ [(k, v)]).find? (fun kv => kv.1 = k')
        = l.find? (fun kv => kv.1 = k') := by
    intro l
    induction l with
    | nil => simp [List.find?, Ne.symm h]
    | cons x xs ih =>
      by_cases hx : x.1 = k
      · have hx' : ¬ x.1 = k' := fun e => h (e.symm.trans hx)
        rw [List.filter_cons_of_neg (by simpa using hx),
          List.find?_cons_of_neg _ (by simpa using hx')]
        exact ih
      · rw [List.filter_cons_of_pos (by simpa using hx), List.cons_append]
        by_cases hx' : x.1 = k'
        · rw [List.find?_cons_of_pos _ (by simpa using hx'),
            List.find?_cons_of_pos _ (by simpa using hx')]
        · rw [List.find?_cons_of_neg _ (by simpa using hx'),
            List.find?_cons_of_neg _ (by simpa using hx')]
          exact ih
  simp only [ResponseWriter.getHeader, ResponseWriter.setHeader, key]

/-- The final path of `WriteHeader`: on a connection that is not hijacked, with no header
written and a final status, the header is written with that status, and the body is as it
was. -/
theorem writeHeader_final (w : ResponseWriter) (S : Int)
    (hij : w.hijacked = false) (hw : w.wroteHeader = false)
    (hS : S = 101 ∨ (200 ≤ S ∧ S ≤ 999)) :
    ∃ w', w.WriteHeader S = .ok w' ∧ w'.hijacked = false ∧ w'.wroteHeader = true
      ∧ w'.status = S ∧ w'.body = w.body ∧ w'.method = w.method
      ∧ (w.getHeader "Content-Length" = "" → w'.contentLength = none) := by
  have h1 : ¬ (S < 100 ∨ S > 999) := by omega
  have h2 : ¬ (S ≤ 199 ∧ S ≠ 101) := by omega
  unfold ResponseWriter.WriteHeader
  simp only [hij, hw, h1, h2, if_false, Bool.false_eq_true]
  by_cases hcl : w.getHeader "Content-Length" = ""
  · simp [hcl]
  · simp only [hcl, if_false]
    cases parseContentLength (w.getHeader "Content-Length") <;>
      simp [ResponseWriter.delHeader]

/-- A write after the header was written leaves the header as it is. -/
theorem write_after_header (w : ResponseWriter) (data : String)
    (hij : w.hijacked = false) (hw : w.wroteHeader = true) :
    ∃ w', w.Write data = .ok w' ∧ w'.wroteHeader = true ∧ w'.status = w.status
      ∧ (w.contentLength = none → data ≠ "" →
          w'.body = if bodyAllowedForStatus w.status ∧ w.method ≠ "HEAD"
            then w.body ++ data else w.body)
      ∧ (w.method = "HEAD" → w'.body = w.body) := by
  unfold ResponseWriter.Write
  simp only [hij, hw, if_true, if_false, Bool.false_eq_true]
  by_cases hd : data = ""
  · simp [hd, hw]
  · by_cases hb : bodyAllowedForStatus w.status = true
    · cases hc : w.contentLength with
      | none =>
        by_cases hm : w.method = "HEAD" <;> simp [hd, hb, hc, hm, hw]
      | some n =>
        by_cases hn : w.written + data.utf8ByteSize > n <;>
          by_cases hm : w.method = "HEAD" <;> simp [hd, hb, hc, hm, hw, hn]
    · simp [hd, hb, hw]

/-- The members emitted for an envelope are the non-empty ones of `code`, `error`, `data`, in
that order, each with the JSON text of its value. -/
theorem members_spec (resp : ResponseResource) (ms : List (String × String))
    (h : resp.members = .ok ms) :
    (ms.map Prod.fst).Sublist ["code", "error", "data"]
    ∧ ("code" ∈ ms.map Prod.fst ↔ resp.Code ≠ 0)
    ∧ ("error" ∈ ms.map Prod.fst ↔ resp.Error ≠ "")
    ∧ ("data" ∈ ms.map Prod.fst ↔ resp.Data ≠ none)
    ∧ (∀ t, ("code", t) ∈ ms → t = toString resp.Code)
    ∧ (∀ t, ("error", t) ∈ ms → t = appendString resp.Error)
    ∧ (∀ t, ("data", t) ∈ ms → ∃ v, resp.Data = some v ∧ encodeValue v = .ok t) := by
  unfold ResponseResource.members at h
  cases hd : resp.Data with
  | none =>
    simp only [hd] at h
    by_cases hc : resp.Code = 0 <;> by_cases he : resp.Error = "" <;>
      simp [hc, he] at h <;> subst h <;> simp [hc, he]
  | some v =>
    simp only [hd] at h
    cases hv : encodeValue v with
    | error msg => simp [hv] at h
    | ok txt =>
      simp only [hv] at h
      by_cases hc : resp.Code = 0 <;> by_cases he : resp.Error = "" <;>
        simp [hc, he] at h <;> subst h <;> simp [hc, he, hv]

/-- The envelope copies the status and the payload, and takes the text of the error. -/
theorem resp_fields (res : HandlerResult) :
    (ResponseWrapper.resp res).Code = res.statusCode
    ∧ (ResponseWrapper.resp res).Data = res.responseData
    ∧ (ResponseWrapper.resp res).Error = (match res.err with | some e => e.Error | none => "") := by
  unfold ResponseWrapper.resp
  cases res.err <;> simp

/-- With a payload that encodes, `Encode` yields the object text of the members and a newline. -/
theorem encode_of_members (resp : ResponseResource) (ms : List (String × String))
    (h : resp.members = .ok ms) : Encode resp = .ok (objectText ms ++ "\n") := by
  simp [Encode, ResponseResource.Marshal, h]

/-- What `render.JSON` does when the envelope encodes and the status hint is a final status, on
a connection that is not hijacked and with no header written yet. -/
theorem renderJSON_final (w : ResponseWriter) (r : Request) (resp : ResponseResource) (S : Int)
    (buf : String)
    (hr : r.statusHint = some S) (henc : Encode resp = .ok buf) (hne : buf ≠ "")
    (hij : w.hijacked = false) (hw : w.wroteHeader = false)
    (hS : S = 101 ∨ (200 ≤ S ∧ S ≤ 999)) :
    ∃ w', renderJSON w r resp = .ok w' ∧ w'.wroteHeader = true ∧ w'.status = S
      ∧ (w.getHeader "Content-Length" = "" →
          w'.body = if bodyAllowedForStatus S ∧ w.method ≠ "HEAD"
            then w.body ++ buf else w.body)
      ∧ (w.method = "HEAD" → w'.body = w.body) := by
  obtain ⟨w2, h2, h2ij, h2w, h2s, h2b, h2m, h2c⟩ :=
    writeHeader_final (w.setHeader "Content-Type" "application/json; charset=utf-8") S
      hij hw hS
  obtain ⟨w3, h3, h3w, h3s, h3b, h3h⟩ := write_after_header w2 buf h2ij h2w
  refine ⟨w3, ?_, h3w, h3s.trans h2s, ?_, ?_⟩
  · simp only [renderJSON, henc, hr, h2, h3]
  · intro hcl
    have hc : w2.contentLength = none := by
      apply h2c
      rw [getHeader_setHeader_ne _ _ _ _ (by decide)]
      exact hcl
    rw [h3b hc hne, h2s, h2b, h2m]
    rfl
  · intro hm
    rw [h3h (h2m.trans hm), h2b]
    rfl

/-- A status outside `100..999` makes `render.JSON` panic in `WriteHeader`, on a connection
that is not hijacked and with no header written yet. -/
theorem renderJSON_invalid (w : ResponseWriter) (r : Request) (resp : ResponseResource)
    (S : Int) (buf : String)
    (hr : r.statusHint = some S) (henc : Encode resp = .ok buf)
    (hij : w.hijacked = false) (hw : w.wroteHeader = false)
    (hS : S < 100 ∨ S > 999) :
    renderJSON w r resp = .error ("invalid WriteHeader code " ++ toString S) := by
  simp [renderJSON, henc, hr, ResponseWriter.WriteHeader, ResponseWriter.setHeader, hij, hw, hS]

/-- C1 (amended): for every handler result (P, S, E) the envelope has `code == S`, `data == P`
and `error == E.Error()` when E is non-nil, `""` otherwise.  Whenever the envelope serializes,
`data` appears in it iff P is not the nil interface; `error` appears iff E is non-nil and
`E.Error()` is not the empty string, and the member it then carries is the JSON string of
`E.Error()`. -/
theorem C1_envelope_fields (res : HandlerResult) (ms : List (String × String))
    (h : (ResponseWrapper.resp res).members = .ok ms) :
    (ResponseWrapper.resp res).Code = res.statusCode
    ∧ (ResponseWrapper.resp res).Data = res.responseData
    ∧ (∀ e, res.err = some e → (ResponseWrapper.resp res).Error = e.Error)
    ∧ (res.err = none → (ResponseWrapper.resp res).Error = "")
    ∧ ("data" ∈ ms.map Prod.fst ↔ res.responseData ≠ none)
    ∧ ("error" ∈ ms.map Prod.fst ↔ ∃ e, res.err = some e ∧ e.Error ≠ "")
    ∧ (∀ e, res.err = some e → e.Error ≠ "" → ("error", appendString e.Error) ∈ ms)
    ∧ (∀ t, ("error", t) ∈ ms → ∃ e, res.err = some e ∧ t = appendString e.Error) := by
  obtain ⟨_, _, herr, hdata, _, herrv, _⟩ := members_spec _ _ h
  obtain ⟨hC, hD, hE⟩ := resp_fields res
  have key : "error" ∈ ms.map Prod.fst ↔ ∃ e, res.err = some e ∧ e.Error ≠ "" := by
    rw [herr, hE]
    cases res.err <;> simp
  have val : ∀ t, ("error", t) ∈ ms → ∃ e, res.err = some e ∧ t = appendString e.Error := by
    intro t ht
    have hk : "error" ∈ ms.map Prod.fst := List.mem_map.mpr ⟨("error", t), ht, rfl⟩
    obtain ⟨e, he, _⟩ := key.mp hk
    refine ⟨e, he, ?_⟩
    have := herrv t ht
    rw [hE, he] at this
    exact this
  refine ⟨hC, hD, ?_, ?_, ?_, key, ?_, val⟩
  · intro e he
    rw [hE, he]
  · intro he
    rw [hE, he]
  · rw [hdata, hD]
  · intro e he hne
    have hk : "error" ∈ ms.map Prod.fst := key.mpr ⟨e, he, hne⟩
    obtain ⟨⟨k, t⟩, hmem, hfst⟩ := List.mem_map.mp hk
    simp only at hfst
    subst hfst
    obtain ⟨e2, he2, ht⟩ := val t hmem
    rw [he] at he2
    cases he2
    rw [← ht]
    exact hmem

/-- C1, at a concrete result: an empty-string payload and the error "not found". -/
theorem C1_envelope_fields_witness :
    (ResponseWrapper.resp ⟨some (.str ""), 404, some (.other "not found")⟩).members
        = .ok [("code", "404"), ("error", "\"not found\""), ("data", "\"\"")]
    ∧ ("data" ∈ [("code", "404"), ("error", "\"not found\""), ("data", "\"\"")].map Prod.fst
        ↔ some (JValue.str "") ≠ none) :=
  ⟨rfl, (C1_envelope_fields ⟨some (.str ""), 404, some (.other "not found")⟩
    [("code", "404"), ("error", "\"not found\""), ("data", "\"\"")] rfl).2.2.2.2.1⟩

/-- C1 as stated fails for a non-nil error whose text is empty (`errors.New("")`): the error is
non-nil and the serialized envelope has no `error` member.  For a payload that does not encode
there is no serialized envelope for `data` to appear in. -/
theorem C1_counterexample_empty_error_text :
    (ResponseWrapper.resp ⟨none, 500, some (.other "")⟩).members = .ok [("code", "500")]
    ∧ some (GoError.other "") ≠ none
    ∧ "error" ∉ [("code", "500")].map Prod.fst
    ∧ (ResponseWrapper.resp ⟨some (.unsupported "chan int"), 200, none⟩).members
        = .error "json: unsupported type: chan int" := by
  refine ⟨rfl, by simp, by decide, rfl⟩

/-- The exchange of the adapter when the envelope encodes and the status is final, after a
handler that left the connection alone and wrote no header. -/
theorem wrapper_final {σ : Type} (f : HandlerFunc σ) (s : σ) (w : ResponseWriter) (r : Request)
    (ms : List (String × String))
    (hms : (ResponseWrapper.resp (f s w r).result).members = .ok ms)
    (hij : (f s w r).w.hijacked = false) (hw : (f s w r).w.wroteHeader = false)
    (hS : (f s w r).result.statusCode = 101
      ∨ (200 ≤ (f s w r).result.statusCode ∧ (f s w r).result.statusCode ≤ 999)) :
    (ResponseWrapper f s w r).status = some (f s w r).result.statusCode
    ∧ ((f s w r).w.getHeader "Content-Length" = "" →
        (ResponseWrapper f s w r).body = some
          (if bodyAllowedForStatus (f s w r).result.statusCode ∧ (f s w r).w.method ≠ "HEAD"
            then (f s w r).w.body ++ (objectText ms ++ "\n") else (f s w r).w.body))
    ∧ ((f s w r).w.method = "HEAD" →
        (ResponseWrapper f s w r).body = some (f s w r).w.body) := by
  obtain ⟨w', h1, h2, h3, h4, h5⟩ :=
    renderJSON_final (f s w r).w (renderStatus (f s w r).r (f s w r).result.statusCode)
      (ResponseWrapper.resp (f s w r).result) (f s w r).result.statusCode
      (objectText ms ++ "\n") rfl (encode_of_members _ _ hms) (append_newline_ne_empty _)
      hij hw hS
  have hW : (ResponseWrapper f s w r).w = .ok w' := h1
  refine ⟨?_, ?_, ?_⟩
  · simp [Exchange.status, hW, h2, h3]
  · intro hcl
    simp only [Exchange.body, hW, h4 hcl]
  · intro hm
    simp only [Exchange.body, hW, h5 hm]

/-- The exchange of the adapter when the envelope encodes and the status is outside
`100..999`, after a handler that left the connection alone and wrote no header. -/
theorem wrapper_invalid {σ : Type} (f : HandlerFunc σ) (s : σ) (w : ResponseWriter)
    (r : Request) (ms : List (String × String))
    (hms : (ResponseWrapper.resp (f s w r).result).members = .ok ms)
    (hij : (f s w r).w.hijacked = false) (hw : (f s w r).w.wroteHeader = false)
    (hS : (f s w r).result.statusCode < 100 ∨ (f s w r).result.statusCode > 999) :
    (ResponseWrapper f s w r).w
      = .error ("invalid WriteHeader code " ++ toString (f s w r).result.statusCode) :=
  renderJSON_invalid (f s w r).w (renderStatus (f s w r).r (f s w r).result.statusCode)
    (ResponseWrapper.resp (f s w r).result) (f s w r).result.statusCode
    (objectText ms ++ "\n") rfl (encode_of_members _ _ hms) hij hw hS

/-- C2 (amended): for every handler result (P, S, E) whose payload encodes, the serialized
envelope is a JSON object whose members are among `code`, `error`, `data`, in that order; a
member is left out exactly when its value is empty (`code = 0`, `error = ""`, `data = nil`) and
otherwise carries the JSON text of the value.  On any writer and request, after a handler that
has not written the response header, hijacked the connection or declared a `Content-Length`:
when the request is not a HEAD request and S is a status that admits a body (`200 ≤ S ≤ 999`,
not 204, not 304), the adapter adds to the response body exactly that object followed by the
newline `Encode` appends; for a HEAD request with a final status it adds nothing; when S is
outside `100..999` no body is written. -/
theorem C2_body_is_envelope_object {σ : Type} (f : HandlerFunc σ) (s : σ) (w : ResponseWriter)
    (r : Request) (ms : List (String × String))
    (hms : (ResponseWrapper.resp (f s w r).result).members = .ok ms) :
    (ms.map Prod.fst).Sublist ["code", "error", "data"]
    ∧ ("code" ∈ ms.map Prod.fst ↔ (f s w r).result.statusCode ≠ 0)
    ∧ ("error" ∈ ms.map Prod.fst ↔ (ResponseWrapper f s w r).resp.Error ≠ "")
    ∧ ("data" ∈ ms.map Prod.fst ↔ (f s w r).result.responseData ≠ none)
    ∧ (∀ t, ("code", t) ∈ ms → t = toString (f s w r).result.statusCode)
    ∧ (∀ t, ("error", t) ∈ ms → t = appendString (ResponseWrapper f s w r).resp.Error)
    ∧ (∀ t, ("data", t) ∈ ms →
        ∃ v, (f s w r).result.responseData = some v ∧ encodeValue v = .ok t)
    ∧ ((f s w r).w.hijacked = false → (f s w r).w.wroteHeader = false →
        (f s w r).w.getHeader "Content-Length" = "" → (f s w r).w.method ≠ "HEAD" →
        200 ≤ (f s w r).result.statusCode → (f s w r).result.statusCode ≤ 999 →
        (f s w r).result.statusCode ≠ 204 → (f s w r).result.statusCode ≠ 304 →
        (ResponseWrapper f s w r).body
          = some ((f s w r).w.body ++ (objectText ms ++ "\n")))
    ∧ ((f s w r).w.hijacked = false → (f s w r).w.wroteHeader = false →
        (f s w r).w.method = "HEAD" →
        ((f s w r).result.statusCode = 101
          ∨ (200 ≤ (f s w r).result.statusCode ∧ (f s w r).result.statusCode ≤ 999)) →
        (ResponseWrapper f s w r).body = some (f s w r).w.body)
    ∧ ((f s w r).w.hijacked = false → (f s w r).w.wroteHeader = false →
        ((f s w r).result.statusCode < 100 ∨ (f s w r).result.statusCode > 999) →
        (ResponseWrapper f s w r).body = none) := by
  obtain ⟨h1, h2, h3, h4, h5, h6, h7⟩ := members_spec _ _ hms
  obtain ⟨hC, hD, _⟩ := resp_fields (f s w r).result
  rw [hC] at h2 h5
  rw [hD] at h4 h7
  refine ⟨h1, h2, h3, h4, h5, h6, h7, ?_, ?_, ?_⟩
  · intro hij hw hcl hm hlo hhi h204 h304
    have hb : bodyAllowedForStatus (f s w r).result.statusCode = true := by
      unfold bodyAllowedForStatus
      have : ¬ (100 ≤ (f s w r).result.statusCode
          ∧ (f s w r).result.statusCode ≤ 199) := by omega
      simp [this, h204, h304]
    rw [(wrapper_final f s w r ms hms hij hw (Or.inr ⟨hlo, hhi⟩)).2.1 hcl]
    simp [hb, hm]
  · intro hij hw hm hS
    exact (wrapper_final f s w r ms hms hij hw hS).2.2 hm
  · intro hij hw hS
    simp [Exchange.body, wrapper_invalid f s w r ms hms hij hw hS]

/-- C2, at the two scenarios of the specification, `({"id":1}, 200, nil)` and
`(nil, 404, error("not found"))`, on a GET request, at the second one on a HEAD request, and
after a handler that set a header field. -/
theorem C2_body_is_envelope_object_witness :
    (ResponseWrapper.resp ((constHandler ⟨some (.obj (.cons "id" (.num 1) .nil)), 200, none⟩)
        () .fresh ⟨"GET", "/", none⟩).result).members
      = .ok [("code", "200"), ("data", "\x7b\"id\":1\x7d")]
    ∧ (ResponseWrapper (constHandler ⟨some (.obj (.cons "id" (.num 1) .nil)), 200, none⟩) ()
        .fresh ⟨"GET", "/", none⟩).body
      = some "\x7b\"code\":200,\"data\":\x7b\"id\":1\x7d\x7d\n"
    ∧ (ResponseWrapper (constHandler ⟨none, 404, some (.other "not found")⟩) ()
        .fresh ⟨"GET", "/", none⟩).body
      = some "\x7b\"code\":404,\"error\":\"not found\"\x7d\n"
    ∧ (ResponseWrapper (constHandler ⟨none, 404, some (.other "not found")⟩) ()
        (.forRequest ⟨"HEAD", "/", none⟩) ⟨"HEAD", "/", none⟩).body = some ""
    ∧ (ResponseWrapper headerHandler () .fresh ⟨"GET", "/", none⟩).body
      = some "\x7b\"code\":404,\"error\":\"not found\"\x7d\n" :=
  ⟨rfl,
   (C2_body_is_envelope_object (constHandler ⟨some (.obj (.cons "id" (.num 1) .nil)), 200, none⟩)
      () .fresh ⟨"GET", "/", none⟩ [("code", "200"), ("data", "\x7b\"id\":1\x7d")]
      rfl).2.2.2.2.2.2.2.1
      rfl rfl rfl (by decide) (by decide) (by decide) (by decide) (by decide),
   (C2_body_is_envelope_object (constHandler ⟨none, 404, some (.other "not found")⟩)
      () .fresh ⟨"GET", "/", none⟩ [("code", "404"), ("error", "\"not found\"")]
      rfl).2.2.2.2.2.2.2.1
      rfl rfl rfl (by decide) (by decide) (by decide) (by decide) (by decide),
   (C2_body_is_envelope_object (constHandler ⟨none, 404, some (.other "not found")⟩)
      () (.forRequest ⟨"HEAD", "/", none⟩) ⟨"HEAD", "/", none⟩
      [("code", "404"), ("error", "\"not found\"")]
      rfl).2.2.2.2.2.2.2.2.1
      rfl rfl rfl (Or.inr (by decide)),
   (C2_body_is_envelope_object headerHandler
      () .fresh ⟨"GET", "/", none⟩ [("code", "404"), ("error", "\"not found\"")]
      rfl).2.2.2.2.2.2.2.1
      rfl rfl rfl (by decide) (by decide) (by decide) (by decide) (by decide)⟩

/-- C2 as stated fails.  For the result `({"id":1}, 0, nil)` the claim promises a body with
`code` left out, and the adapter writes no body: `WriteHeader(0)` panics.  For the scenario
`({"id":1}, 200, nil)` the body is not exactly `{"code":200,"data":{"id":1}}`: a newline
follows the object.  For `(nil, 204, nil)` the body is empty, the status forbids one.  For a
payload that does not encode the body is the text of the encoder's error.  After a handler that
wrote `oops` itself the body starts with that.  For a HEAD request the body is empty. -/
theorem C2_counterexample_zero_status_and_newline :
    (ResponseWrapper (constHandler ⟨some (.obj (.cons "id" (.num 1) .nil)), 0, none⟩) ()
        .fresh ⟨"GET", "/", none⟩).w = .error "invalid WriteHeader code 0"
    ∧ (ResponseWrapper (constHandler ⟨some (.obj (.cons "id" (.num 1) .nil)), 0, none⟩) ()
        .fresh ⟨"GET", "/", none⟩).body = none
    ∧ (ResponseWrapper (constHandler ⟨some (.obj (.cons "id" (.num 1) .nil)), 200, none⟩) ()
        .fresh ⟨"GET", "/", none⟩).body
        ≠ some "\x7b\"code\":200,\"data\":\x7b\"id\":1\x7d\x7d"
    ∧ (ResponseWrapper (constHandler ⟨none, 204, none⟩) () .fresh ⟨"GET", "/", none⟩).body
        = some ""
    ∧ (ResponseWrapper (constHandler ⟨some (.unsupported "chan int"), 200, none⟩) ()
        .fresh ⟨"GET", "/", none⟩).body = some "json: unsupported type: chan int\n"
    ∧ (ResponseWrapper writingHandler () .fresh ⟨"GET", "/", none⟩).body
        = some "oops\x7b\"code\":200\x7d\n"
    ∧ (ResponseWrapper (constHandler ⟨some (.obj (.cons "id" (.num 1) .nil)), 200, none⟩) ()
        (.forRequest ⟨"HEAD", "/", none⟩) ⟨"HEAD", "/", none⟩).body = some "" := by
  exact ⟨rfl, rfl, by decide, rfl, rfl, rfl, rfl⟩

/-- C3 (amended): for every handler result (P, S, E) whose payload encodes, on any writer and
request, after a handler that has neither written the response header itself nor hijacked the
connection, and for a status S that `net/http` takes as the final status (`S = 101` or
`200 ≤ S ≤ 999`), the status line written carries S, which is the status hint `render.Status`
stored and the envelope's `code`.  For S outside `100..999`, `S = 0` included, `WriteHeader`
panics and no status line is written. -/
theorem C3_status_is_code {σ : Type} (f : HandlerFunc σ) (s : σ) (w : ResponseWriter)
    (r : Request) (ms : List (String × String))
    (hms : (ResponseWrapper.resp (f s w r).result).members = .ok ms) :
    (ResponseWrapper f s w r).resp.Code = (f s w r).result.statusCode
    ∧ (ResponseWrapper f s w r).r.statusHint = some (f s w r).result.statusCode
    ∧ ((f s w r).w.hijacked = false → (f s w r).w.wroteHeader = false →
        ((f s w r).result.statusCode = 101
          ∨ (200 ≤ (f s w r).result.statusCode ∧ (f s w r).result.statusCode ≤ 999)) →
        (ResponseWrapper f s w r).status = some (ResponseWrapper f s w r).resp.Code)
    ∧ ((f s w r).w.hijacked = false → (f s w r).w.wroteHeader = false →
        ((f s w r).result.statusCode < 100 ∨ (f s w r).result.statusCode > 999) →
        (ResponseWrapper f s w r).status = none) := by
  have hC : (ResponseWrapper f s w r).resp.Code = (f s w r).result.statusCode :=
    (resp_fields (f s w r).result).1
  refine ⟨hC, rfl, ?_, ?_⟩
  · intro hij hw hS
    rw [hC]
    exact (wrapper_final f s w r ms hms hij hw hS).1
  · intro hij hw hS
    simp [Exchange.status, wrapper_invalid f s w r ms hms hij hw hS]

/-- C3, at the result `(nil, 404, error("not found"))`: on a fresh writer, and after a handler
that only set a header field. -/
theorem C3_status_is_code_witness :
    (ResponseWrapper.resp ((constHandler ⟨none, 404, some (.other "not found")⟩) ()
        .fresh ⟨"GET", "/", none⟩).result).members
      = .ok [("code", "404"), ("error", "\"not found\"")]
    ∧ (ResponseWrapper (constHandler ⟨none, 404, some (.other "not found")⟩) ()
        .fresh ⟨"GET", "/", none⟩).status = some 404
    ∧ (ResponseWrapper headerHandler () .fresh ⟨"GET", "/", none⟩).status = some 404 :=
  ⟨rfl,
   (C3_status_is_code (constHandler ⟨none, 404, some (.other "not found")⟩) () .fresh
      ⟨"GET", "/", none⟩ [("code", "404"), ("error", "\"not found\"")] rfl).2.2.1
      rfl rfl (Or.inr (by decide)),
   (C3_status_is_code headerHandler () .fresh
      ⟨"GET", "/", none⟩ [("code", "404"), ("error", "\"not found\"")] rfl).2.2.1
      rfl rfl (Or.inr (by decide))⟩

/-- C3 as stated fails at `S = 0`, for the result `(nil, 0, nil)`: the envelope's code is 0 and
no HTTP status is written, the adapter panics in `WriteHeader(0)`.  It also fails for a payload
that does not encode, `(chan, 200, nil)`, and after a handler that wrote the header itself: the
envelope's code is 200 and the status written is 500. -/
theorem C3_counterexample_zero_status :
    (ResponseWrapper (constHandler ⟨none, 0, none⟩) () .fresh ⟨"GET", "/", none⟩).resp.Code = 0
    ∧ (ResponseWrapper (constHandler ⟨none, 0, none⟩) () .fresh ⟨"GET", "/", none⟩).w
        = .error "invalid WriteHeader code 0"
    ∧ (ResponseWrapper (constHandler ⟨none, 0, none⟩) () .fresh ⟨"GET", "/", none⟩).status
        = none
    ∧ (ResponseWrapper (constHandler ⟨some (.unsupported "chan int"), 200, none⟩) ()
        .fresh ⟨"GET", "/", none⟩).resp.Code = 200
    ∧ (ResponseWrapper (constHandler ⟨some (.unsupported "chan int"), 200, none⟩) ()
        .fresh ⟨"GET", "/", none⟩).status = some 500
    ∧ (ResponseWrapper writingHandler () .fresh ⟨"GET", "/", none⟩).resp.Code = 200
    ∧ (ResponseWrapper writingHandler () .fresh ⟨"GET", "/", none⟩).status = some 500 := by
  exact ⟨rfl, rfl, rfl, rfl, rfl, rfl, rfl⟩

/-- C9: for every deterministic handler `f`, one whose results and whose effect on the writer
and the request do not depend on the state it runs against, and every request `r`, two
invocations of `ResponseWrapper(f)` on `r`, from any two states and on the same writer, build
the same envelope (code, error, data) and leave the same response (status, headers, body);
each invocation runs `f` exactly once: the state afterwards is the one a single execution of
`f` leaves. -/
theorem C9_adapter_idempotent {σ : Type} (f : HandlerFunc σ)
    (hdet : ∀ (s1 s2 : σ) (w : ResponseWriter) (r : Request),
      (f s1 w r).result = (f s2 w r).result ∧ (f s1 w r).w = (f s2 w r).w
      ∧ (f s1 w r).r = (f s2 w r).r)
    (s1 s2 : σ) (w : ResponseWriter) (r : Request) :
    (ResponseWrapper f s1 w r).resp = (ResponseWrapper f s2 w r).resp
    ∧ (ResponseWrapper f s1 w r).resp.Code = (ResponseWrapper f s2 w r).resp.Code
    ∧ (ResponseWrapper f s1 w r).resp.Error = (ResponseWrapper f s2 w r).resp.Error
    ∧ (ResponseWrapper f s1 w r).resp.Data = (ResponseWrapper f s2 w r).resp.Data
    ∧ (ResponseWrapper f s1 w r).w = (ResponseWrapper f s2 w r).w
    ∧ (ResponseWrapper f s1 w r).status = (ResponseWrapper f s2 w r).status
    ∧ (ResponseWrapper f s1 w r).body = (ResponseWrapper f s2 w r).body
    ∧ (ResponseWrapper f s1 w r).r = (ResponseWrapper f s2 w r).r
    ∧ (ResponseWrapper f s1 w r).world = (f s1 w r).world
    ∧ (ResponseWrapper f s2 w r).world = (f s2 w r).world := by
  obtain ⟨h1, h2, h3⟩ := hdet s1 s2 w r
  have hresp : (ResponseWrapper f s1 w r).resp = (ResponseWrapper f s2 w r).resp := by
    simp [ResponseWrapper, h1]
  have hw : (ResponseWrapper f s1 w r).w = (ResponseWrapper f s2 w r).w := by
    simp [ResponseWrapper, h1, h2, h3]
  refine ⟨hresp, by rw [hresp], by rw [hresp], by rw [hresp], hw, ?_, ?_, ?_, rfl, rfl⟩
  · simp [Exchange.status, hw]
  · simp [Exchange.body, hw]
  · simp [ResponseWrapper, h1, h3]

/-- C9, at the counting handler: two invocations from counts 0 and 1 leave the same response,
and the count goes up by one each time. -/
theorem C9_adapter_idempotent_witness :
    (∀ (s1 s2 : Nat) (w : ResponseWriter) (r : Request),
      (countingHandler s1 w r).result = (countingHandler s2 w r).result
      ∧ (countingHandler s1 w r).w = (countingHandler s2 w r).w
      ∧ (countingHandler s1 w r).r = (countingHandler s2 w r).r)
    ∧ (ResponseWrapper countingHandler 0 .fresh ⟨"GET", "/ping", none⟩).w
        = (ResponseWrapper countingHandler 1 .fresh ⟨"GET", "/ping", none⟩).w
    ∧ (ResponseWrapper countingHandler 0 .fresh ⟨"GET", "/ping", none⟩).world = 1
    ∧ (ResponseWrapper countingHandler 1 .fresh ⟨"GET", "/ping", none⟩).world = 2 :=
  ⟨fun _ _ _ _ => ⟨rfl, rfl, rfl⟩,
   (C9_adapter_idempotent countingHandler (fun _ _ _ _ => ⟨rfl, rfl, rfl⟩) 0 1 .fresh
      ⟨"GET", "/ping", none⟩).2.2.2.2.1,
   (C9_adapter_idempotent countingHandler (fun _ _ _ _ => ⟨rfl, rfl, rfl⟩) 0 1 .fresh
      ⟨"GET", "/ping", none⟩).2.2.2.2.2.2.2.2.1,
   (C9_adapter_idempotent countingHandler (fun _ _ _ _ => ⟨rfl, rfl, rfl⟩) 0 1 .fresh
      ⟨"GET", "/ping", none⟩).2.2.2.2.2.2.2.2.2⟩

/-! ## Part 2: theorems about the lifecycle -/

/-- The walk with `ChiWalkFunc` logs one line per entry, in order, changes nothing else and
returns no error. -/
theorem walk_chiWalkFunc (rt : List Route) (st : State) :
    Walk rt ChiWalkFunc st
      = ({ st with log := st.log ++ rt.map fun e => LogEntry.route e.method e.route }, none) := by
  induction rt generalizing st with
  | nil => simp [Walk]
  | cons e rest ih =>
    simp only [Walk, ChiWalkFunc]
    rw [ih]
    simp

theorem countP_route_lines (rt : List Route) :
    (rt.map fun e => LogEntry.route e.method e.route).countP LogEntry.isServeError = 0 := by
  induction rt with
  | nil => rfl
  | cons e rest ih => simp [List.countP_cons, LogEntry.isServeError, ih]

theorem init_inv (router : List Route) : Inv router (init router) := by
  constructor <;> simp [init, serveErrorLines]

theorem inv_main (router : List Route) (s s' : State)
    (hi : Inv router s) (hx : s.exit = none) (h : Run.step s = some s') : Inv router s' := by
  rw [inv_iff] at hi ⊢
  obtain ⟨router0, main, watcher, watcherCtx, closes, serveCalls, serveResult, shutdownCtx,
    shutdownResult, exit, log⟩ := s
  simp only at h hi hx
  cases main <;> cases watcher <;>
    simp [Run.step, walk_chiWalkFunc] at h hi <;>
    (first | subst h | (obtain ⟨hc, h⟩ := h; subst h)) <;>
    simp_all [countP_route_lines, LogEntry.isServeError, serveErrorLines, Run.baseCtx]

theorem inv_serveReturn (router : List Route) (s s' : State) (err : Option GoError)
    (hi : Inv router s) (hx : s.exit = none) (h : Run.serveReturn s err = some s') : Inv router s' := by
  rw [inv_iff] at hi ⊢
  obtain ⟨router0, main, watcher, watcherCtx, closes, serveCalls, serveResult, shutdownCtx,
    shutdownResult, exit, log⟩ := s
  simp only at h hi hx
  by_cases he : err = some .ErrServerClosed <;>
  cases main <;> cases watcher <;>
    simp [Run.serveReturn, he] at h hi <;>
    (first | subst h | (obtain ⟨hc, h⟩ := h; subst h)) <;>
    simp_all [LogEntry.isServeError, serveErrorLines]

theorem inv_watcher (router : List Route) (s s' : State)
    (hi : Inv router s) (hx : s.exit = none) (h : ShutdownOnNotify.start s = some s') : Inv router s' := by
  rw [inv_iff] at hi ⊢
  obtain ⟨router0, main, watcher, watcherCtx, closes, serveCalls, serveResult, shutdownCtx,
    shutdownResult, exit, log⟩ := s
  simp only at h hi hx
  cases main <;> cases watcher <;>
    simp [ShutdownOnNotify.start] at h hi <;>
    subst h <;>
    simp_all

theorem inv_interrupt (router : List Route) (s s' : State)
    (hi : Inv router s) (hx : s.exit = none) (h : ShutdownOnNotify.interrupt s = some s') : Inv router s' := by
  rw [inv_iff] at hi ⊢
  obtain ⟨router0, main, watcher, watcherCtx, closes, serveCalls, serveResult, shutdownCtx,
    shutdownResult, exit, log⟩ := s
  simp only at h hi hx
  cases main <;> cases watcher <;>
    simp_all [ShutdownOnNotify.interrupt] <;>
    subst h <;>
    simp_all [LogEntry.isServeError]

theorem inv_killed (router : List Route) (s : State)
    (hi : Inv router s) (hw : s.watcher ≠ .fatal) :
    Inv router { s with exit := some .killed } := by
  rw [inv_iff] at hi ⊢
  simp_all

theorem inv_shutdownReturn (router : List Route) (s s' : State) (err : Option GoError)
    (hi : Inv router s) (hx : s.exit = none)
    (h : ShutdownOnNotify.shutdownReturn s err = some s') : Inv router s' := by
  rw [inv_iff] at hi ⊢
  obtain ⟨router0, main, watcher, watcherCtx, closes, serveCalls, serveResult, shutdownCtx,
    shutdownResult, exit, log⟩ := s
  simp only at h hi hx
  cases err <;> cases main <;> cases watcher <;>
    simp [ShutdownOnNotify.shutdownReturn] at h hi <;>
    subst h <;>
    simp_all [LogEntry.isServeError]

theorem step_inv (router : List Route) (s s' : State) (e : Event)
    (hi : Inv router s) (h : step s e = some s') : Inv router s' := by
  unfold step at h
  split at h
  · simp at h
  · rename_i hx
    cases e with
    | main => exact inv_main router s s' hi (by simpa using hx) h
    | serveReturn err => exact inv_serveReturn router s s' err hi (by simpa using hx) h
    | watcher => exact inv_watcher router s s' hi (by simpa using hx) h
    | interrupt =>
      simp only at h
      split at h
      · exact inv_interrupt router s s' hi (by simpa using hx) h
      · simp at h; subst h; exact hi
      · simp at h; subst h; exact hi
      · rename_i hw1 hw2 hw3
        simp at h
        subst h
        apply inv_killed router s hi
        intro hf
        have := (hi.exit_fatal).mpr hf
        simp [this] at hx
    | shutdownDone lnerr drain =>
      simp only at h
      split at h
      · split at h
        · exact inv_shutdownReturn router s s' _ hi (by simpa using hx) h
        · simp at h
      · simp at h


theorem run_inv (router : List Route) (evs : List Event) (s s' : State)
    (hi : Inv router s) (h : run s evs = some s') : Inv router s' := by
  induction evs generalizing s with
  | nil =>
    simp [run] at h
    subst h
    exact hi
  | cons e es ih =>
    simp only [run] at h
    cases hs : step s e with
    | none => simp [hs] at h
    | some s1 =>
      simp only [hs] at h
      exact ih s1 (step_inv router s s1 e hi hs) h

/-- Every state reached from `init router` satisfies the invariant. -/
theorem reachable_inv (router : List Route) (evs : List Event) (s : State)
    (h : run (init router) evs = some s) : Inv router s :=
  run_inv router evs (init router) s (init_inv router) h

/-- A step changes the number of closes only when it is the end of `Shutdown` without error,
taken by `ShutdownOnNotify` from `draining`. -/
theorem step_closes (s s' : State) (e : Event) (h : step s e = some s')
    (hne : s'.closes ≠ s.closes) :
    (∃ lnerr drain, e = .shutdownDone lnerr drain) ∧ s.watcher = .draining
    ∧ s'.closes = s.closes + 1 ∧ s'.watcher = .closed ∧ s'.shutdownResult = some none := by
  obtain ⟨router0, main, watcher, watcherCtx, closes, serveCalls, serveResult, shutdownCtx,
    shutdownResult, exit, log⟩ := s
  unfold step at h
  simp only at h hne
  split at h
  · simp at h
  · cases e with
    | main =>
      cases main <;> simp [Run.step, walk_chiWalkFunc] at h <;>
        (first | subst h | (obtain ⟨hc, h⟩ := h; subst h)) <;> simp at hne
    | serveReturn err =>
      simp only [Run.serveReturn] at h
      split at h
      · simp at h; subst h; simp at hne
      · simp at h
    | watcher =>
      simp only [ShutdownOnNotify.start] at h
      split at h
      · simp at h; subst h; simp at hne
      · simp at h
    | interrupt =>
      cases watcher <;> cases watcherCtx <;> simp [ShutdownOnNotify.interrupt] at h <;>
        subst h <;> simp at hne
    | shutdownDone lnerr drain =>
      simp only at h
      split at h
      · split at h
        · rename_i err hr
          simp only [ShutdownOnNotify.shutdownReturn] at h
          split at h
          · rename_i hw
            cases err with
            | some e => simp at h; subst h; simp at hne
            | none => simp at h; subst h; simp_all
          · simp at h
        · simp at h
      · simp at h

/-- `Shutdown` with the background context returns the listener error when the drain ends and
does not return when it never ends. -/
theorem shutdown_background (lnerr : Option GoError) :
    (∀ t, Shutdown Context.Background lnerr (some t) = some lnerr)
    ∧ Shutdown Context.Background lnerr none = none := by
  simp [Shutdown, Context.Background]


/-- C4: in every state the process reaches, `idleConnsClosed` has been closed at most once; it
has been closed exactly once precisely when the coordinator is in `closed`; when it has been
closed the interrupt was received (the goodbye of line 80 is logged) and `Shutdown` has returned
nil; and the only step that closes it is the end of `Shutdown` taken by `ShutdownOnNotify` from
`draining`, which takes the count from 0 to 1. -/
theorem C4_channel_closed_once (router : List Route) (evs : List Event) (s : State)
    (h : run (init router) evs = some s) :
    s.closes ≤ 1
    ∧ (s.watcher = .closed ↔ s.closes = 1)
    ∧ (s.closes = 1 → LogEntry.goodbye ∈ s.log ∧ s.shutdownResult = some none)
    ∧ (∀ e s', step s e = some s' → s'.closes ≠ s.closes →
        (∃ lnerr drain, e = .shutdownDone lnerr drain) ∧ s.watcher = .draining
        ∧ LogEntry.goodbye ∈ s.log ∧ s.closes = 0 ∧ s'.closes = 1 ∧ s'.watcher = .closed
        ∧ s'.shutdownResult = some none) := by
  have hi := reachable_inv router evs s h
  have hcl : s.watcher = .closed ↔ s.closes = 1 := by
    rw [hi.closes_eq]
    by_cases hw : s.watcher = .closed <;> simp [hw]
  refine ⟨?_, hcl, ?_, ?_⟩
  · rw [hi.closes_eq]
    split <;> omega
  · intro hc
    have hw := hcl.mpr hc
    refine ⟨hi.goodbye_mem ?_, hi.result_closed hw⟩
    rw [hi.shutdownCtx_eq]
    simp [hw]
  · intro e s' hs hne
    obtain ⟨he, hw, hc, hw', hr⟩ := step_closes s s' e hs hne
    have h0 : s.closes = 0 := by
      rw [hi.closes_eq]
      simp [hw]
    refine ⟨he, hw, hi.goodbye_mem ?_, h0, by omega, hw', hr⟩
    rw [hi.shutdownCtx_eq]
    simp [hw]

/-- C4, at the run `drainRun`, which reaches `closed`. -/
theorem C4_channel_closed_once_witness :
    run (init demoRouter) drainRun = some drainState
    ∧ (drainState.watcher = .closed ↔ drainState.closes = 1) :=
  ⟨by decide, (C4_channel_closed_once demoRouter drainRun drainState (by decide)).2.1⟩

/-- C5: in every state the process reaches, `Run` has returned only if `idleConnsClosed` has
been closed by the coordinator, and `Register` has then returned nil and nothing else.  Whatever
the serve call returns, `Run` goes on to the receive of line 49; there it cannot move while the
channel is open, and once the channel is closed its next step is the return. -/
theorem C5_run_returns_after_close (router : List Route) (evs : List Event) (s : State)
    (h : run (init router) evs = some s) :
    (s.main = .returned → s.closes = 1 ∧ s.watcher = .closed)
    ∧ (∀ r, Register s = some r → r = none ∧ s.closes = 1)
    ∧ (∀ err s', step s (.serveReturn err) = some s' →
        s'.main = .waiting ∧ s'.serveResult = some err ∧ Register s' = none)
    ∧ (s.main = .waiting → s.closes = 0 → step s .main = none)
    ∧ (s.main = .waiting → s.closes = 1 → s.exit = none →
        ∃ s', step s .main = some s' ∧ s'.main = .returned ∧ Register s' = some none) := by
  have hi := reachable_inv router evs s h
  have hret : s.main = .returned → s.closes = 1 ∧ s.watcher = .closed := by
    intro hm
    have hw := hi.returned_closed hm
    refine ⟨?_, hw⟩
    rw [hi.closes_eq]
    simp [hw]
  refine ⟨hret, ?_, ?_, ?_, ?_⟩
  · intro r hr
    unfold Register at hr
    split at hr
    · rename_i hm
      simp at hr
      exact ⟨hr.symm, (hret hm).1⟩
    · simp at hr
  · intro err s' hs
    unfold step at hs
    split at hs
    · simp at hs
    · simp only [Run.serveReturn] at hs
      split at hs
      · simp at hs
        subst hs
        simp [Register]
      · simp at hs
  · intro hm hc
    unfold step
    split
    · rfl
    · simp [Run.step, hm, hc]
  · intro hm hc hx
    refine ⟨{ s with main := .returned }, ?_, rfl, ?_⟩
    · unfold step
      simp [hx, Run.step, hm, hc]
    · simp [Register]

/-- C5, at the run `bindFailRun`: the bind fails, and `Run` returns after the close. -/
theorem C5_run_returns_after_close_witness :
    run (init demoRouter) bindFailRun = some bindFailState
    ∧ (bindFailState.main = .returned → bindFailState.closes = 1 ∧ bindFailState.watcher = .closed) :=
  ⟨by decide, (C5_run_returns_after_close demoRouter bindFailRun bindFailState (by decide)).1⟩

/-- C6: in every state the process reaches, the serve call has been made at most once, and
exactly once when it has returned; the log holds one transport-error line when it returned
anything but `http.ErrServerClosed` and none otherwise, and that line carries the value
returned.  The return `err` of the serve call appends the line exactly when `err` is not
`http.ErrServerClosed`, and makes no further serve call.  The serve call does get made and
does return: from `launched` the next step of `Run` is the one serve call, and while `Run` is
in the serve call every `err` can come back (`http.ErrServerClosed` once `Shutdown` was
called), which logs the one line for every `err` but `http.ErrServerClosed` and takes `Run` to
the receive. -/
theorem C6_serve_error_logged (router : List Route) (evs : List Event) (s : State)
    (h : run (init router) evs = some s) :
    s.serveCalls ≤ 1
    ∧ (s.serveResult ≠ none → s.serveCalls = 1)
    ∧ s.log.countP LogEntry.isServeError = serveErrorLines s.serveResult
    ∧ (∀ err, s.serveResult = some err →
        (LogEntry.serveError err ∈ s.log ↔ err ≠ some .ErrServerClosed))
    ∧ (∀ err s', step s (.serveReturn err) = some s' →
        s'.log = (if err = some .ErrServerClosed then s.log else s.log ++ [.serveError err])
        ∧ s'.serveCalls = s.serveCalls ∧ s'.serveResult = some err)
    ∧ (s.exit = none → s.main = .launched →
        (step s .main).map (fun t => (t.main, t.serveCalls)) = some (.serving, 1))
    ∧ (s.exit = none → s.main = .serving → ∀ err,
        (err = some .ErrServerClosed → s.shutdownCtx ≠ none) →
        (step s (.serveReturn err)).map (fun t => t.log)
          = some (if err = some .ErrServerClosed then s.log else s.log ++ [.serveError err])
        ∧ (step s (.serveReturn err)).map (fun t => t.log.countP LogEntry.isServeError)
          = some (if err = some .ErrServerClosed then 0 else 1)
        ∧ (step s (.serveReturn err)).map (fun t => (t.main, t.serveResult, t.serveCalls))
          = some (.waiting, some err, 1)) := by
  have hi := reachable_inv router evs s h
  refine ⟨?_, ?_, hi.serveLog_count, ?_, ?_, ?_, ?_⟩
  · rw [hi.serveCalls_eq]
    split <;> omega
  · intro hr
    rw [hi.serveCalls_eq]
    have := hi.serveResult_iff.mp hr
    rcases this with hm | hm <;> simp [hm]
  · intro err hr
    constructor
    · intro hmem hcl
      have hc := hi.serveLog_count
      rw [hr, hcl] at hc
      simp only [serveErrorLines, if_true] at hc
      have hpos : 0 < s.log.countP LogEntry.isServeError :=
        List.countP_pos_iff.mpr ⟨_, hmem, rfl⟩
      omega
    · exact hi.serveLog_mem err hr
  · intro err s' hs
    unfold step at hs
    split at hs
    · simp at hs
    · simp only [Run.serveReturn] at hs
      split at hs
      · simp at hs
        subst hs
        by_cases he : err = some .ErrServerClosed <;> simp [he]
      · simp at hs
  · intro hx hm
    have hc : s.serveCalls = 0 := by
      rw [hi.serveCalls_eq]
      simp [hm]
    simp [step, hx, Run.step, hm, hc]
  · intro hx hm err hg
    have hc : s.serveCalls = 1 := by
      rw [hi.serveCalls_eq]
      simp [hm]
    have hr : s.serveResult = none := by
      by_contra hr
      have := hi.serveResult_iff.mp hr
      rw [hm] at this
      simp at this
    have h0 : s.log.countP LogEntry.isServeError = 0 := by
      rw [hi.serveLog_count, hr]
      rfl
    have hg' : err = some .ErrServerClosed → s.shutdownCtx.isSome = true := by
      intro he
      exact Option.isSome_iff_ne_none.mpr (hg he)
    by_cases he : err = some .ErrServerClosed
    · simp [step, hx, Run.serveReturn, hm, hg' he, he, hc, h0]
    · simp [step, hx, Run.serveReturn, hm, he, hc, h0, LogEntry.isServeError]

/-- C6, at the run `servingRun` and a failed bind: the serve call has been made once, its
return with the bind error logs one transport-error line, and its return with
`http.ErrServerClosed` is not yet possible. -/
theorem C6_serve_error_logged_witness :
    run (init demoRouter) servingRun = some servingState
    ∧ servingState.serveCalls ≤ 1
    ∧ (step servingState
          (.serveReturn (some (.other "listen tcp :8082: bind: address already in use")))).map
        (fun t => t.log.countP LogEntry.isServeError) = some 1
    ∧ (step servingState
          (.serveReturn (some (.other "listen tcp :8082: bind: address already in use")))).map
        (fun t => t.log)
        = some (servingState.log
            ++ [.serveError (some (.other "listen tcp :8082: bind: address already in use"))]) :=
  ⟨by decide,
   (C6_serve_error_logged demoRouter servingRun servingState (by decide)).1,
   ((C6_serve_error_logged demoRouter servingRun servingState (by decide)).2.2.2.2.2.2
      rfl rfl (some (.other "listen tcp :8082: bind: address already in use"))
      (by decide)).2.1,
   ((C6_serve_error_logged demoRouter servingRun servingState (by decide)).2.2.2.2.2.2
      rfl rfl (some (.other "listen tcp :8082: bind: address already in use"))
      (by decide)).1⟩

/-- C7: in every state the process reaches in which `Shutdown` has returned, the channel has
been closed iff `Shutdown` returned nil.  When it returned an error, the last log line is the
fatal message with that error, the process has exited through `log.Fatalf`, the channel has not
been closed, and no step follows, so it is never closed.  And `Shutdown` does return into both
branches: in every reachable state with the coordinator in `draining`, lines 81-85 of
`ShutdownOnNotify` run for every value `err` of the call, closing the channel (count 1, state
`closed`, nothing logged, process alive) when `err` is nil, and logging the fatal line and
exiting with the channel left open (count 0) when it is not; the end of the pending `Shutdown`
call is a step of the live process that does exactly this with the listener error. -/
theorem C7_shutdown_error_fatal (router : List Route) (evs : List Event) (s : State)
    (h : run (init router) evs = some s) :
    (∀ r, s.shutdownResult = some r → (s.closes = 1 ↔ r = none))
    ∧ (s.closes = 1 → s.shutdownResult = some none)
    ∧ (∀ e, s.shutdownResult = some (some e) →
        s.watcher = .fatal ∧ s.exit = some .fatal ∧ s.log.getLast? = some (.fatal e)
        ∧ s.closes = 0 ∧ (∀ ev, step s ev = none)
        ∧ (∀ evs' s', run s evs' = some s' → s'.closes = 0))
    ∧ (s.watcher = .draining → ∀ err,
        (ShutdownOnNotify.shutdownReturn s err).map
            (fun t => (t.closes, t.watcher, t.exit, t.shutdownResult, t.log))
          = some (if err = none then 1 else 0,
                  if err = none then WatcherPc.closed else WatcherPc.fatal,
                  if err = none then s.exit else some Exit.fatal,
                  some err,
                  match err with
                  | none => s.log
                  | some e => s.log ++ [LogEntry.fatal e]))
    ∧ (s.exit = none → s.watcher = .draining → ∀ lnerr t,
        (step s (.shutdownDone lnerr (some t))).map
            (fun u => (u.closes, u.watcher, u.exit, u.shutdownResult))
          = some (if lnerr = none then 1 else 0,
                  if lnerr = none then WatcherPc.closed else WatcherPc.fatal,
                  if lnerr = none then none else some Exit.fatal,
                  some lnerr)) := by
  have hi := reachable_inv router evs s h
  have hcl : s.closes = 1 ↔ s.watcher = .closed := by
    rw [hi.closes_eq]
    by_cases hw : s.watcher = .closed <;> simp [hw]
  have hfat : ∀ e, s.shutdownResult = some (some e) → s.watcher = .fatal := by
    intro e he
    by_contra hw
    by_cases hc : s.watcher = .closed
    · have := hi.result_closed hc
      rw [he] at this
      simp at this
    · have := hi.result_none hc hw
      rw [he] at this
      simp at this
  refine ⟨?_, ?_, ?_, ?_, ?_⟩
  · intro r hr
    cases r with
    | none =>
      simp only [iff_true]
      apply hcl.mpr
      by_contra hc
      by_cases hw : s.watcher = .fatal
      · obtain ⟨e, he, _⟩ := hi.result_fatal hw
        rw [hr] at he
        simp at he
      · have := hi.result_none hc hw
        rw [hr] at this
        simp at this
    | some e =>
      have hw := hfat e hr
      have : s.closes = 0 := by
        rw [hi.closes_eq]
        simp [hw]
      simp [this]
  · intro hc
    exact hi.result_closed (hcl.mp hc)
  · intro e he
    have hw := hfat e he
    have hx : s.exit = some .fatal := hi.exit_fatal.mpr hw
    have h0 : s.closes = 0 := by
      rw [hi.closes_eq]
      simp [hw]
    have hstep : ∀ ev, step s ev = none := by
      intro ev
      unfold step
      simp [hx]
    obtain ⟨e', he', hlast⟩ := hi.result_fatal hw
    rw [he] at he'
    simp at he'
    subst he'
    refine ⟨hw, hx, hlast, h0, hstep, ?_⟩
    intro evs' s' hrun
    cases evs' with
    | nil =>
      simp [run] at hrun
      subst hrun
      exact h0
    | cons ev rest =>
      simp [run, hstep ev] at hrun
  · intro hw err
    have h0 : s.closes = 0 := by
      rw [hi.closes_eq]
      simp [hw]
    cases err <;> simp [ShutdownOnNotify.shutdownReturn, hw, h0]
  · intro hx hw lnerr t
    have h0 : s.closes = 0 := by
      rw [hi.closes_eq]
      simp [hw]
    have hc : s.shutdownCtx = some Context.Background := by
      rw [hi.shutdownCtx_eq]
      simp [hw]
    cases lnerr <;>
      simp [step, hx, hc, (shutdown_background _).1 t, ShutdownOnNotify.shutdownReturn, hw, h0]

/-- C7, at the run `pendingRun`, which ends with `Shutdown` pending, and at the run `fatalRun`,
in which closing the listeners fails: a nil return closes the channel, a deadline error and
the listener error do not and end the process. -/
theorem C7_shutdown_error_fatal_witness :
    run (init demoRouter) pendingRun = some pendingState
    ∧ (ShutdownOnNotify.shutdownReturn pendingState none).map
        (fun t => (t.closes, t.watcher, t.exit, t.shutdownResult, t.log))
        = some (1, .closed, none, some none, pendingState.log)
    ∧ (ShutdownOnNotify.shutdownReturn pendingState (some .DeadlineExceeded)).map
        (fun t => (t.closes, t.watcher, t.exit, t.shutdownResult, t.log))
        = some (0, .fatal, some .fatal, some (some .DeadlineExceeded),
            pendingState.log ++ [.fatal .DeadlineExceeded])
    ∧ (step pendingState (.shutdownDone none (some 5))).map
        (fun u => (u.closes, u.watcher, u.exit, u.shutdownResult))
        = some (1, .closed, none, some none)
    ∧ run (init demoRouter) fatalRun = some fatalState
    ∧ (fatalState.watcher = .fatal ∧ fatalState.exit = some .fatal
        ∧ fatalState.log.getLast?
            = some (.fatal (.other "close tcp :8082: use of closed network connection"))
        ∧ fatalState.closes = 0 ∧ (∀ ev, step fatalState ev = none)
        ∧ (∀ evs' s', run fatalState evs' = some s' → s'.closes = 0)) :=
  ⟨by decide,
   (C7_shutdown_error_fatal demoRouter pendingRun pendingState (by decide)).2.2.2.1 rfl none,
   (C7_shutdown_error_fatal demoRouter pendingRun pendingState (by decide)).2.2.2.1 rfl
      (some .DeadlineExceeded),
   (C7_shutdown_error_fatal demoRouter pendingRun pendingState (by decide)).2.2.2.2 rfl rfl
      none 5,
   by decide,
   (C7_shutdown_error_fatal demoRouter fatalRun fatalState (by decide)).2.2.1
      (.other "close tcp :8082: use of closed network connection") rfl⟩

/-- C8 (amended): the context `Run` hands to `ShutdownOnNotify`, and `ShutdownOnNotify` to
`srv.Shutdown`, is `context.Background()`: it carries no deadline.  With it `Shutdown` returns
the error of closing the listeners once the connections are idle, however long that takes, and
does not return while they are not; the result of `Shutdown` in the process is never a context
error. -/
theorem C8_shutdown_context_background (router : List Route) (evs : List Event) (s : State)
    (h : run (init router) evs = some s) :
    (∀ ctx, s.watcherCtx = some ctx → ctx = Context.Background)
    ∧ (∀ ctx, s.shutdownCtx = some ctx →
        ctx.deadline = none
        ∧ (∀ lnerr t, Shutdown ctx lnerr (some t) = some lnerr)
        ∧ (∀ lnerr, Shutdown ctx lnerr none = none))
    ∧ (∀ lnerr drain s', step s (.shutdownDone lnerr drain) = some s' →
        drain ≠ none ∧ s'.shutdownResult = some lnerr) := by
  have hi := reachable_inv router evs s h
  have hsc : ∀ ctx, s.shutdownCtx = some ctx → ctx = Context.Background := by
    intro ctx hc
    have := hi.shutdownCtx_eq
    rw [hc] at this
    split at this <;> simp at this
    exact this
  refine ⟨?_, ?_, ?_⟩
  · intro ctx hc
    have := hi.watcherCtx_eq
    rw [hc] at this
    split at this <;> simp at this
    exact this
  · intro ctx hc
    rw [hsc ctx hc]
    exact ⟨rfl, fun lnerr => (shutdown_background lnerr).1, fun lnerr => (shutdown_background lnerr).2⟩
  · intro lnerr drain s' hs
    unfold step at hs
    split at hs
    · simp at hs
    · simp only at hs
      split at hs
      · rename_i ctx hc
        rw [hsc ctx hc] at hs
        cases drain with
        | none => simp [(shutdown_background lnerr).2] at hs
        | some t =>
          simp only [(shutdown_background lnerr).1 t, ShutdownOnNotify.shutdownReturn] at hs
          split at hs
          · cases lnerr <;> simp at hs <;> subst hs <;> simp
          · simp at hs
      · simp at hs

/-- C8 (amended), at the run `drainingRun`, which ends in the call of `Shutdown`. -/
theorem C8_shutdown_context_background_witness :
    run (init demoRouter) drainingRun = some drainingState
    ∧ (∀ ctx, drainingState.watcherCtx = some ctx → ctx = Context.Background) :=
  ⟨by decide,
   (C8_shutdown_context_background demoRouter drainingRun drainingState (by decide)).1⟩

/-- C8 as stated fails: after startup and an interrupt, the context `Shutdown` was called with
has no deadline, and a drain of a million ticks ends in `closed` with the process alive, not in
the fatal drain-timeout path. -/
theorem C8_counterexample_no_deadline :
    (run (init demoRouter) drainingRun).map (fun s => s.shutdownCtx)
        = some (some { deadline := none })
    ∧ (run (init demoRouter) (drainingRun ++ [.shutdownDone none (some 1000000)])).map
        (fun s => (s.watcher, s.exit, s.shutdownResult))
        = some (.closed, none, some none) := by
  exact ⟨by decide, by decide⟩

/-- C10: `ChiWalkFunc` logs exactly one line for the entry it is given, made of the method and
the route, changes nothing else and returns nil.  So the walk of a route table with it returns
nil, appends one line per entry in walk order (as many lines as entries), and leaves the route
table and the rest of the state as they were; the first step of `Run` goes on past the walk and
never takes the `log.Panicf` branch. -/
theorem C10_route_logger (method route : String) (handler : Nat) (middlewares : List Nat)
    (rt : List Route) (st : State) :
    ChiWalkFunc method route handler middlewares st
        = ({ st with log := st.log ++ [.route method route] }, none)
    ∧ (LogEntry.route method route).text = "👉 " ++ method ++ " " ++ route ++ "\n"
    ∧ (Walk rt ChiWalkFunc st).2 = none
    ∧ (Walk rt ChiWalkFunc st).1.log
        = st.log ++ rt.map (fun e => LogEntry.route e.method e.route)
    ∧ (Walk rt ChiWalkFunc st).1.log.length = st.log.length + rt.length
    ∧ (Walk rt ChiWalkFunc st).1.router = st.router
    ∧ (Walk rt ChiWalkFunc st).1 = { st with log := (Walk rt ChiWalkFunc st).1.log }
    ∧ Run.step (init rt)
        = some { init rt with
            main := .walked, log := rt.map (fun e => LogEntry.route e.method e.route) } := by
  refine ⟨rfl, rfl, ?_, ?_, ?_, ?_, ?_, ?_⟩
  · rw [walk_chiWalkFunc]
  · rw [walk_chiWalkFunc]
  · rw [walk_chiWalkFunc]
    simp
  · rw [walk_chiWalkFunc]
  · rw [walk_chiWalkFunc]
  · simp [Run.step, init, walk_chiWalkFunc]

end Rest
